import Mathlib

/-!
Shallow embedding of the m61 debugging allocator
(`pset1/build/Project1 Test1.cpp`).

The allocator services requests from an 8 MiB bump arena obtained once
from the platform, keeps a vector of live-allocation records, and keeps
running statistics.  All `size_t` / `unsigned long long` / pointer
arithmetic in the source is 64-bit and wraps modulo `2^64`; the
embedding mirrors that with explicit `% 2^64`.
-/

namespace M61

/-- Width of `size_t`, `uintptr_t` and `unsigned long long` on the
reference 64-bit platforms. -/
def UINT64 : Nat := 2 ^ 64

/-- `m61_memory_buffer::size = 8 << 20` (8 MiB), fixed for the life of
the process. -/
def buffer_size : Nat := 8 <<< 20

/-- 64-bit wrapping addition (`size_t` `+`). -/
def add64 (a b : Nat) : Nat := (a + b) % UINT64

/-- 64-bit wrapping multiplication (`size_t` `*`). -/
def mul64 (a b : Nat) : Nat := (a * b) % UINT64

/-- 64-bit wrapping subtraction (`size_t` / `unsigned long long` `-`). -/
def sub64 (a b : Nat) : Nat := (a + (UINT64 - b % UINT64)) % UINT64

/-- The `m61_statistics` struct: eight `unsigned long long` counters,
zero-initialized (`gstats = {0,0,0,0,0,0,0,0}`). -/
structure m61_statistics where
  nactive : Nat
  active_size : Nat
  ntotal : Nat
  total_size : Nat
  nfail : Nat
  fail_size : Nat
  heap_min : Nat
  heap_max : Nat
deriving DecidableEq

/-- The `allocation_info` record pushed into `active_allocations` on a
successful allocation: pointer value, size, and the call site.  The
`file` pointer may be null, modelled as `none`. -/
structure allocation_info where
  ptr : Nat
  size : Nat
  file : Option String
  line : Int
deriving DecidableEq

/-- The allocator's global mutable state: the arena base address and
cursor (`default_buffer.buffer` / `default_buffer.pos`), the byte
contents of memory, the live-record vector `active_allocations`
(insertion order), and the statistics `gstats`. -/
structure AllocState where
  base : Nat
  pos : Nat
  mem : Nat → Nat
  active_allocations : List allocation_info
  gstats : m61_statistics

/-- State at program start: cursor 0, no records, zeroed statistics;
the anonymous `mmap` region is zero-filled.  The base address is the
value the platform happened to return. -/
def initState (b : Nat) : AllocState :=
  { base := b
    pos := 0
    mem := fun _ => 0
    active_allocations := []
    gstats := ⟨0, 0, 0, 0, 0, 0, 0, 0⟩ }

/-- `m61_malloc(sz, file, line)` translated line for line.  The bounds
test `default_buffer.pos + sz > default_buffer.size` is `size_t`
arithmetic, hence the wrapping sum.  Returns the result pointer (or
`none` for `nullptr`) together with the new state. -/
def m61_malloc (sz : Nat) (file : Option String) (line : Int) (s : AllocState) :
    Option Nat × AllocState :=
  if sz = 0 ∨ add64 s.pos sz > buffer_size then
    (none,
      { s with gstats :=
        { s.gstats with
          nfail := add64 s.gstats.nfail 1
          fail_size := add64 s.gstats.fail_size sz } })
  else
    let ptr := add64 s.base s.pos
    let g := s.gstats
    let hmax := sub64 (add64 ptr sz) 1
    (some ptr,
      { s with
        pos := add64 s.pos sz
        active_allocations := s.active_allocations ++ [⟨ptr, sz, file, line⟩]
        gstats :=
        { g with
          ntotal := add64 g.ntotal 1
          total_size := add64 g.total_size sz
          nactive := add64 g.nactive 1
          active_size := add64 g.active_size sz
          heap_min := if g.heap_min = 0 ∨ ptr < g.heap_min then ptr else g.heap_min
          heap_max := if hmax > g.heap_max then hmax else g.heap_max } })

/-- The scan-and-erase loop inside `m61_free`: find the first record
whose `ptr` matches and return it with the remaining list, or `none`
if no record matches. -/
def find_and_remove (p : Nat) : List allocation_info →
    Option (allocation_info × List allocation_info)
  | [] => none
  | r :: rest =>
    if r.ptr = p then some (r, rest)
    else
      match find_and_remove p rest with
      | some (q, rest2) => some (q, r :: rest2)
      | none => none

/-- Placeholder text printf substitutes for a null `file` pointer. -/
def null_file_text : String := "???"

/-- Hexadecimal rendering of a pointer value, as glibc `%p` prints a
non-null pointer. -/
def fmt_ptr (p : Nat) : String := "0x" ++ String.mk (Nat.toDigits 16 p)

/-- The diagnostic `m61_free` prints to stderr when no live record
matches: `Invalid free or double free at %s:%d for pointer %p`. -/
def invalid_free_line (file : Option String) (line : Int) (p : Nat) : String :=
  "Invalid free or double free at " ++ Option.getD file null_file_text ++ ":" ++
    toString line ++ " for pointer " ++ fmt_ptr p

/-- `m61_free(ptr, file, line)` translated line for line: null pointers
return immediately; otherwise the first matching record is erased and
the active counters decremented (`unsigned long long` wrapping
decrement), or the diagnostic is emitted.  Returns the new state and
the list of stderr lines produced (empty or a single line). -/
def m61_free (p : Nat) (file : Option String) (line : Int) (s : AllocState) :
    AllocState × List String :=
  if p = 0 then (s, [])
  else
    match find_and_remove p s.active_allocations with
    | some (r, rest) =>
      ({ s with
          active_allocations := rest
          gstats :=
          { s.gstats with
            nactive := sub64 s.gstats.nactive 1
            active_size := sub64 s.gstats.active_size r.size } }, [])
    | none => (s, [invalid_free_line file line p])

/-- The effect of `memset(ptr, 0, n)` on the byte contents of memory. -/
def memsetZero (m : Nat → Nat) (p n : Nat) : Nat → Nat :=
  fun a => if p ≤ a ∧ a < p + n then 0 else m a

/-- `m61_calloc(count, sz, file, line)` translated line for line: the
overflow guard `count && sz > SIZE_MAX / count`, then delegation to
`m61_malloc(count * sz)` with a zero-fill of the returned range on
success. -/
def m61_calloc (count sz : Nat) (file : Option String) (line : Int) (s : AllocState) :
    Option Nat × AllocState :=
  if count ≠ 0 ∧ sz > (UINT64 - 1) / count then
    (none,
      { s with gstats :=
        { s.gstats with
          nfail := add64 s.gstats.nfail 1
          fail_size := add64 s.gstats.fail_size (mul64 count sz) } })
  else
    let total := mul64 count sz
    match m61_malloc total file line s with
    | (some ptr, s1) => (some ptr, { s1 with mem := memsetZero s1.mem ptr total })
    | (none, s1) => (none, s1)

/-- `m61_get_statistics()`: a copy of the current statistics. -/
def m61_get_statistics (s : AllocState) : m61_statistics := s.gstats

/-- One line of `m61_print_leak_report`'s output:
`Leak Check: %s:%d: allocated object %p with size %zu`. -/
def leak_line (a : allocation_info) : String :=
  "Leak Check: " ++ Option.getD a.file null_file_text ++ ":" ++ toString a.line ++
    ": allocated object " ++ fmt_ptr a.ptr ++ " with size " ++ toString a.size

/-- The printing loop of `m61_print_leak_report`, one record at a time
in vector order. -/
def printRecords : List allocation_info → List String
  | [] => []
  | a :: rest => leak_line a :: printRecords rest

/-- `m61_print_leak_report()`: walks `active_allocations` and prints
one line per record; returns the stdout lines produced. -/
def m61_print_leak_report (s : AllocState) : List String :=
  printRecords s.active_allocations

/-- Modelled from the spec: the leak-report line format the spec states,
`file:line: allocated object <address> with size <size>` (spec section 6
boundary table), kept for comparison with the source's `leak_line`. -/
def spec_leak_line (a : allocation_info) : String :=
  Option.getD a.file null_file_text ++ ":" ++ toString a.line ++
    ": allocated object " ++ fmt_ptr a.ptr ++ " with size " ++ toString a.size

/-- A call to the public allocation API, for whole-trace statements. -/
inductive MCall where
  | malloc (sz : Nat) (file : Option String) (line : Int)
  | calloc (count sz : Nat) (file : Option String) (line : Int)
  | free (p : Nat) (file : Option String) (line : Int)

/-- The state after one API call (return values and output discarded). -/
def step (s : AllocState) : MCall → AllocState
  | .malloc sz f l => (m61_malloc sz f l s).2
  | .calloc c z f l => (m61_calloc c z f l s).2
  | .free p f l => (m61_free p f l s).1

/-- The state after a whole sequence of API calls. -/
def run (s : AllocState) : List MCall → AllocState
  | [] => s
  | c :: t => run (step s c) t

/-- 1 when the call is an allocation that succeeds (returns non-null)
from state `s`, else 0. -/
def callSuccessAlloc (s : AllocState) : MCall → Nat
  | .malloc sz f l => if (m61_malloc sz f l s).1.isSome then 1 else 0
  | .calloc c z f l => if (m61_calloc c z f l s).1.isSome then 1 else 0
  | .free _ _ _ => 0

/-- 1 when the call is a release that finds and removes a live record
from state `s`, else 0. -/
def callSuccessFree (s : AllocState) : MCall → Nat
  | .free p _ _ =>
    if p ≠ 0 ∧ (find_and_remove p s.active_allocations).isSome then 1 else 0
  | .malloc _ _ _ => 0
  | .calloc _ _ _ _ => 0

/-- Number of successful allocations along a trace starting at `s`. -/
def succAllocs (s : AllocState) : List MCall → Nat
  | [] => 0
  | c :: t => callSuccessAlloc s c + succAllocs (step s c) t

/-- Number of successful releases along a trace starting at `s`. -/
def succFrees (s : AllocState) : List MCall → Nat
  | [] => 0
  | c :: t => callSuccessFree s c + succFrees (step s c) t

/-- The statistics/registry correspondence the code maintains: the
active count and byte total equal the registry's length and size sum
reduced modulo `2^64`. -/
def StatsInv (s : AllocState) : Prop :=
  s.gstats.nactive = s.active_allocations.length % UINT64 ∧
  s.gstats.active_size =
    (s.active_allocations.map allocation_info.size).sum % UINT64

/-- A sample call-site file argument for concrete states. -/
def tfile : Option String := some ("test.cpp")

/-- State after `m61_malloc(1000)` on a fresh arena based at `65536`:
cursor 1000, one live record at `65536`. -/
def bugState1 : AllocState := (m61_malloc 1000 tfile 1 (initState 65536)).2

/-- State after the follow-up request of `2^64 - 1000` bytes: the
`size_t` sum `pos + sz` wraps to 0, the bounds check passes, and the
allocation succeeds. -/
def bugState2 : AllocState := (m61_malloc (UINT64 - 1000) tfile 2 bugState1).2

/-- State holding one 8 MiB minus 1 byte allocation. -/
def exhaustState : AllocState := (m61_malloc 8388607 tfile 1 (initState 65536)).2

/-- State with a single 5-byte live allocation made at `hello.cpp:10`. -/
def oneLeakState : AllocState :=
  (m61_malloc 5 (some ("hello.cpp")) 10 (initState 65536)).2

/-- Third allocation after the wrapped cursor: 500 bytes at `65536`
again, overlapping the first allocation. -/
def ipState3 : AllocState := (m61_malloc 500 tfile 3 bugState2).2

/-- Fourth allocation: 100 bytes at `66036`, an address strictly inside
the still-live first (1000-byte) allocation's range. -/
def ipState4 : AllocState := (m61_malloc 100 tfile 4 ipState3).2

/-- State with one 16-byte live allocation at `65536`. -/
def dfState1 : AllocState := (m61_malloc 16 tfile 4 (initState 65536)).2

/-- State after that allocation has been released once. -/
def dfState2 : AllocState := (m61_free 65536 tfile 5 dfState1).1

/-- A sample trace: two successful allocations with a release of the
first in between. -/
def wTrace : List MCall :=
  [MCall.malloc 100 tfile 1, MCall.free 65536 tfile 2, MCall.malloc 7 tfile 3]

/-- When no live record's pointer matches, the scan loop of `m61_free`
finds nothing. -/
theorem find_and_remove_eq_none {p : Nat} {L : List allocation_info}
    (h : ∀ q ∈ L, q.ptr ≠ p) : find_and_remove p L = none := by
  induction L with
  | nil => rfl
  | cons r rest ih =>
    have hr : r.ptr ≠ p := h r (List.mem_cons_self r rest)
    have hrest : find_and_remove p rest = none :=
      ih (fun q hq => h q (List.mem_cons_of_mem r hq))
    simp [find_and_remove, hr, hrest]

/-- What a successful scan tells us: the removed record's pointer
matches, and length and size sum decompose accordingly. -/
theorem find_and_remove_spec {p : Nat} {r : allocation_info}
    {L rest : List allocation_info}
    (h : find_and_remove p L = some (r, rest)) :
    r.ptr = p ∧ L.length = rest.length + 1 ∧
      (L.map allocation_info.size).sum =
        r.size + (rest.map allocation_info.size).sum := by
  induction L generalizing rest with
  | nil => simp [find_and_remove] at h
  | cons a tl ih =>
    by_cases ha : a.ptr = p
    · simp only [find_and_remove, if_pos ha] at h
      obtain ⟨h1, h2⟩ := Prod.mk.injEq .. ▸ (Option.some.injEq .. ▸ h)
      subst h1; subst h2
      simp [ha]
    · simp only [find_and_remove, if_neg ha] at h
      cases hf : find_and_remove p tl with
      | none => rw [hf] at h; simp at h
      | some pr =>
        obtain ⟨q, rest2⟩ := pr
        rw [hf] at h
        simp only [Option.some.injEq, Prod.mk.injEq] at h
        obtain ⟨hq, hrest⟩ := h
        subst hq; subst hrest
        obtain ⟨e1, e2, e3⟩ := ih hf
        refine ⟨e1, by simp [e2], by simp [e3]; ring⟩

/-- The printing loop emits exactly the per-record lines in list order. -/
theorem printRecords_eq_map (L : List allocation_info) :
    printRecords L = L.map leak_line := by
  induction L with
  | nil => rfl
  | cons a t ih => simp [printRecords, ih]

/-- Claim C9: releasing the null pointer is a complete no-op on every
state — no registry change, no counter change, no diagnostic output. -/
theorem c9_null_free (s : AllocState) (file : Option String) (line : Int) :
    m61_free 0 file line s = (s, []) := by
  simp [m61_free]

/-- Claim C9 witness at a concrete state. -/
theorem c9_null_free_witness : m61_free 0 tfile 1 dfState1 = (dfState1, []) :=
  c9_null_free dfState1 tfile 1

/-- Claim C7: a zero-size allocation always fails, leaves the registry,
the cursor, the memory and the active/total counters untouched,
increments the failure count, and adds 0 to the failure-byte total. -/
theorem c7_zero_size_malloc (s : AllocState) (file : Option String) (line : Int)
    (h1 : s.gstats.nfail + 1 < UINT64) (h2 : s.gstats.fail_size < UINT64) :
    (m61_malloc 0 file line s).1 = none ∧
    (m61_malloc 0 file line s).2.active_allocations = s.active_allocations ∧
    (m61_malloc 0 file line s).2.pos = s.pos ∧
    (m61_malloc 0 file line s).2.mem = s.mem ∧
    (m61_malloc 0 file line s).2.gstats.nactive = s.gstats.nactive ∧
    (m61_malloc 0 file line s).2.gstats.active_size = s.gstats.active_size ∧
    (m61_malloc 0 file line s).2.gstats.ntotal = s.gstats.ntotal ∧
    (m61_malloc 0 file line s).2.gstats.total_size = s.gstats.total_size ∧
    (m61_malloc 0 file line s).2.gstats.nfail = s.gstats.nfail + 1 ∧
    (m61_malloc 0 file line s).2.gstats.fail_size = s.gstats.fail_size := by
  simp [m61_malloc, add64, Nat.mod_eq_of_lt h1, Nat.mod_eq_of_lt h2]

/-- Claim C7 witness at the initial state. -/
theorem c7_zero_size_malloc_witness :
    (initState 65536).gstats.nfail + 1 < UINT64 ∧
    (initState 65536).gstats.fail_size < UINT64 ∧
    (m61_malloc 0 tfile 1 (initState 65536)).1 = none :=
  ⟨by decide, by decide,
    (c7_zero_size_malloc (initState 65536) tfile 1 (by decide) (by decide)).1⟩

/-- Claim C8: releasing a non-null address with no matching live record
leaves the whole state unchanged and emits the invalid-or-double-free
diagnostic naming the supplied file, line and pointer; the operation
returns normally. -/
theorem c8_double_free (s : AllocState) (p : Nat) (file : Option String)
    (line : Int) (hp : p ≠ 0)
    (hnone : ∀ q ∈ s.active_allocations, q.ptr ≠ p) :
    m61_free p file line s = (s, [invalid_free_line file line p]) := by
  simp [m61_free, hp, find_and_remove_eq_none hnone]

/-- Claim C8 witness: an actual double free — a 16-byte allocation is
released once, then released again. -/
theorem c8_double_free_witness :
    (65536 ≠ 0) ∧ (∀ q ∈ dfState2.active_allocations, q.ptr ≠ 65536) ∧
    m61_free 65536 tfile 6 dfState2 =
      (dfState2, [invalid_free_line tfile 6 65536]) :=
  ⟨by decide, by decide,
    c8_double_free dfState2 65536 tfile 6 (by decide) (by decide)⟩

/-- Claim C2 (amended): the leak report emits, for every live registry
record in stable registry order, exactly one line, namely
`Leak Check: file:line: allocated object <address> with size <size>`;
in particular an empty registry produces no output. -/
theorem c2_leak_report_lines (s : AllocState) :
    m61_print_leak_report s = s.active_allocations.map leak_line :=
  printRecords_eq_map s.active_allocations

/-- Claim C2 witness at a concrete one-record state. -/
theorem c2_leak_report_lines_witness :
    m61_print_leak_report oneLeakState =
      oneLeakState.active_allocations.map leak_line :=
  c2_leak_report_lines oneLeakState

/-- Claim C2 counterexample: with one live record the emitted line is
not of the spec's stated form — it carries a `Leak Check: ` prefix. -/
theorem c2_leak_report_counterexample :
    oneLeakState.active_allocations = [⟨65536, 5, some ("hello.cpp"), 10⟩] ∧
    m61_print_leak_report oneLeakState ≠
      [spec_leak_line ⟨65536, 5, some ("hello.cpp"), 10⟩] := by
  exact ⟨by decide, by decide⟩

/-- Claim C3: whenever `count > 0` and the true product `count * size`
overflows `size_t`, `m61_calloc` takes the overflow-guard branch: it
returns null, touches neither the cursor, the registry, the memory nor
the active/total counters, increments the failure count, and adds the
wrapped product to the failure-byte total. -/
theorem c3_calloc_overflow (s : AllocState) (count sz : Nat)
    (file : Option String) (line : Int)
    (hc : 0 < count) (hov : UINT64 ≤ count * sz) :
    (m61_calloc count sz file line s).1 = none ∧
    (m61_calloc count sz file line s).2.pos = s.pos ∧
    (m61_calloc count sz file line s).2.active_allocations =
      s.active_allocations ∧
    (m61_calloc count sz file line s).2.mem = s.mem ∧
    (m61_calloc count sz file line s).2.gstats.nactive = s.gstats.nactive ∧
    (m61_calloc count sz file line s).2.gstats.active_size =
      s.gstats.active_size ∧
    (m61_calloc count sz file line s).2.gstats.ntotal = s.gstats.ntotal ∧
    (m61_calloc count sz file line s).2.gstats.total_size =
      s.gstats.total_size ∧
    (m61_calloc count sz file line s).2.gstats.nfail =
      add64 s.gstats.nfail 1 ∧
    (m61_calloc count sz file line s).2.gstats.fail_size =
      add64 s.gstats.fail_size (mul64 count sz) := by
  have hguard : (UINT64 - 1) / count < sz := by
    rcases Nat.lt_or_ge ((UINT64 - 1) / count) sz with h | h
    · exact h
    · exfalso
      have h1 : sz * count ≤ UINT64 - 1 := (Nat.le_div_iff_mul_le hc).1 h
      have h2 : count * sz ≤ UINT64 - 1 := by rwa [Nat.mul_comm] at h1
      have h3 : count * sz < UINT64 :=
        Nat.lt_of_le_of_lt h2 (Nat.sub_lt (by norm_num [UINT64]) Nat.one_pos)
      exact absurd hov (Nat.not_le.mpr h3)
  have hcnz : count ≠ 0 := Nat.pos_iff_ne_zero.mp hc
  simp [m61_calloc, hcnz, hguard]

/-- Claim C3 witness: `count = SIZE_MAX`, `size = 2`; the failure-byte
total grows by the wrapped product `SIZE_MAX * 2 mod 2^64 = 2^64 - 2`. -/
theorem c3_calloc_overflow_witness :
    0 < UINT64 - 1 ∧ UINT64 ≤ (UINT64 - 1) * 2 ∧
    (m61_calloc (UINT64 - 1) 2 tfile 3 (initState 65536)).1 = none ∧
    (m61_calloc (UINT64 - 1) 2 tfile 3 (initState 65536)).2.gstats.fail_size =
      UINT64 - 2 :=
  ⟨by decide, by decide,
    (c3_calloc_overflow (initState 65536) (UINT64 - 1) 2 tfile 3
      (by decide) (by decide)).1, by decide⟩

/-- Claim C5 (amended): whenever `sz ≠ 0` and the `size_t` sum
`pos + sz` exceeds the capacity, the allocation fails atomically: the
cursor, the registry, the memory and all statistics other than the
failure counters are unchanged, while the failure count increments and
the failure-byte total grows by `sz`. -/
theorem c5_exhaustion_atomic (s : AllocState) (sz : Nat)
    (file : Option String) (line : Int)
    (h0 : sz ≠ 0) (hgt : add64 s.pos sz > buffer_size) :
    (m61_malloc sz file line s).1 = none ∧
    (m61_malloc sz file line s).2.pos = s.pos ∧
    (m61_malloc sz file line s).2.active_allocations =
      s.active_allocations ∧
    (m61_malloc sz file line s).2.mem = s.mem ∧
    (m61_malloc sz file line s).2.gstats.nactive = s.gstats.nactive ∧
    (m61_malloc sz file line s).2.gstats.active_size =
      s.gstats.active_size ∧
    (m61_malloc sz file line s).2.gstats.ntotal = s.gstats.ntotal ∧
    (m61_malloc sz file line s).2.gstats.total_size =
      s.gstats.total_size ∧
    (m61_malloc sz file line s).2.gstats.nfail = add64 s.gstats.nfail 1 ∧
    (m61_malloc sz file line s).2.gstats.fail_size =
      add64 s.gstats.fail_size sz := by
  simp [m61_malloc, Or.inr hgt]

/-- Claim C5 witness: the spec's own scenario — an arena already
holding one 8 MiB minus 1 byte allocation rejects a 2-byte request and
leaves the prior allocation untouched. -/
theorem c5_exhaustion_atomic_witness :
    (2 ≠ 0) ∧ add64 exhaustState.pos 2 > buffer_size ∧
    exhaustState.pos = 8388607 ∧ exhaustState.gstats.nactive = 1 ∧
    (m61_malloc 2 tfile 2 exhaustState).1 = none ∧
    (m61_malloc 2 tfile 2 exhaustState).2.pos = exhaustState.pos ∧
    (m61_malloc 2 tfile 2 exhaustState).2.active_allocations =
      exhaustState.active_allocations :=
  ⟨by decide, by decide, by decide, by decide,
    (c5_exhaustion_atomic exhaustState 2 tfile 2 (by decide) (by decide)).1,
    (c5_exhaustion_atomic exhaustState 2 tfile 2 (by decide) (by decide)).2.1,
    (c5_exhaustion_atomic exhaustState 2 tfile 2
      (by decide) (by decide)).2.2.1⟩

/-- Claim C5 counterexample: a request that does not fit — the
mathematical sum `offset + size` exceeds the capacity — nevertheless
succeeds and moves the cursor, because the `size_t` sum wraps. -/
theorem c5_counterexample :
    buffer_size < bugState1.pos + (UINT64 - 1000) ∧
    (m61_malloc (UINT64 - 1000) tfile 2 bugState1).1 ≠ none ∧
    (m61_malloc (UINT64 - 1000) tfile 2 bugState1).2.pos ≠ bugState1.pos := by
  exact ⟨by decide, by decide, by decide⟩

/-- Claim C1 (code bug): starting from a fresh arena based at `65536`,
`m61_malloc(1000)` then `m61_malloc(2^64 - 1000)` makes the `size_t`
sum `pos + sz` wrap to 0, so the bounds check passes: the second
request succeeds, returns `66536`, and its size-byte range extends far
beyond `base + capacity`, violating the arena bounds invariant; the
cursor is left wrapped to 0. -/
theorem c1_arena_bounds_violation :
    bugState1.pos = 1000 ∧
    UINT64 ≤ bugState1.pos + (UINT64 - 1000) ∧
    (m61_malloc (UINT64 - 1000) tfile 2 bugState1).1 = some 66536 ∧
    65536 + buffer_size < 66536 + (UINT64 - 1000) ∧
    (m61_malloc (UINT64 - 1000) tfile 2 bugState1).2.pos = 0 := by
  exact ⟨by decide, by decide, by decide, by decide, by decide⟩

/-- Claim C10 (amended): release matches only exact start addresses —
releasing a pointer strictly inside a live allocation's byte range
which is not itself the start address of any live record emits the
invalid-free diagnostic and changes nothing. -/
theorem c10_interior_pointer_free (s : AllocState) (file : Option String)
    (line : Int) (r : allocation_info) (k : Nat)
    (hr : r ∈ s.active_allocations) (hk0 : 0 < k) (hks : k < r.size)
    (hnostart : ∀ q ∈ s.active_allocations, q.ptr ≠ r.ptr + k) :
    m61_free (r.ptr + k) file line s =
      (s, [invalid_free_line file line (r.ptr + k)]) := by
  have hp : r.ptr + k ≠ 0 := by omega
  simp [m61_free, hp, find_and_remove_eq_none hnostart]

/-- Claim C10 witness: a pointer 3 bytes inside a live 16-byte
allocation is rejected as an invalid free. -/
theorem c10_interior_pointer_free_witness :
    ((⟨65536, 16, tfile, 4⟩ : allocation_info) ∈ dfState1.active_allocations ∧
      0 < 3 ∧ 3 < 16 ∧
      (∀ q ∈ dfState1.active_allocations, q.ptr ≠ 65536 + 3)) ∧
    m61_free (65536 + 3) tfile 9 dfState1 =
      (dfState1, [invalid_free_line tfile 9 (65536 + 3)]) :=
  ⟨⟨by decide, by decide, by decide, by decide⟩,
    c10_interior_pointer_free dfState1 tfile 9 ⟨65536, 16, tfile, 4⟩ 3
      (by decide) (by decide) (by decide) (by decide)⟩

/-- Claim C10 counterexample: after the cursor wraps, address `66036`
is both strictly inside the live 1000-byte allocation at `65536` and
the start of a later 100-byte allocation; releasing it silently removes
the later record and decrements the counters instead of being reported
invalid. -/
theorem c10_counterexample :
    (⟨65536, 1000, tfile, 1⟩ : allocation_info) ∈ ipState4.active_allocations ∧
    (0 < 500 ∧ 500 < 1000 ∧ 65536 + 500 = 66036) ∧
    (m61_free 66036 tfile 9 ipState4).2 = [] ∧
    (m61_free 66036 tfile 9 ipState4).1.active_allocations.map
      allocation_info.ptr = [65536, 66536, 65536] ∧
    (m61_free 66036 tfile 9 ipState4).1.gstats.nactive = 3 ∧
    ipState4.gstats.nactive = 4 := by
  exact ⟨by decide, by decide, by decide, by decide, by decide, by decide⟩

/-- Full success equation for `m61_malloc`: with a nonzero size that
fits (mathematically) below the capacity, the bounds check passes with
no wrap and the new record, cursor and statistics are as in the
source's success path. -/
theorem m61_malloc_success_eq (s : AllocState) (sz : Nat)
    (file : Option String) (line : Int)
    (h0 : sz ≠ 0) (hfit : s.pos + sz ≤ buffer_size) :
    m61_malloc sz file line s =
      (some (add64 s.base s.pos),
        { s with
          pos := add64 s.pos sz
          active_allocations :=
            s.active_allocations ++ [⟨add64 s.base s.pos, sz, file, line⟩]
          gstats :=
          { s.gstats with
            ntotal := add64 s.gstats.ntotal 1
            total_size := add64 s.gstats.total_size sz
            nactive := add64 s.gstats.nactive 1
            active_size := add64 s.gstats.active_size sz
            heap_min :=
              if s.gstats.heap_min = 0 ∨ add64 s.base s.pos < s.gstats.heap_min
              then add64 s.base s.pos else s.gstats.heap_min
            heap_max :=
              if sub64 (add64 (add64 s.base s.pos) sz) 1 > s.gstats.heap_max
              then sub64 (add64 (add64 s.base s.pos) sz) 1
              else s.gstats.heap_max } }) := by
  have hlt : s.pos + sz < UINT64 :=
    lt_of_le_of_lt hfit (by decide)
  have hmod : add64 s.pos sz = s.pos + sz := by
    unfold add64; exact Nat.mod_eq_of_lt hlt
  have hngt : ¬ add64 s.pos sz > buffer_size := by
    rw [hmod]; exact Nat.not_lt.mpr hfit
  simp [m61_malloc, h0, hngt]

/-- Claim C6: for positive `count` and `size` whose product neither
overflows nor exceeds the remaining arena space, `m61_calloc` returns
the bump address and every one of the `count * size` bytes there is
zero on return; and when `count = 0` or `size = 0` it returns null
without inserting any registry record. -/
theorem c6_calloc_zeroing (s : AllocState) (count sz : Nat)
    (file : Option String) (line : Int) :
    (0 < count → 0 < sz → count * sz < UINT64 →
      s.pos + count * sz ≤ buffer_size →
      (m61_calloc count sz file line s).1 = some (add64 s.base s.pos) ∧
      ∀ i, i < count * sz →
        (m61_calloc count sz file line s).2.mem (add64 s.base s.pos + i) = 0) ∧
    ((count = 0 ∨ sz = 0) →
      (m61_calloc count sz file line s).1 = none ∧
      (m61_calloc count sz file line s).2.active_allocations =
        s.active_allocations) := by
  constructor
  · intro hc hz hov hfit
    have hdz : sz ≤ (UINT64 - 1) / count := by
      rw [Nat.le_div_iff_mul_le hc, Nat.mul_comm]
      exact Nat.le_sub_one_of_lt hov
    have hguard : ¬ (count ≠ 0 ∧ (UINT64 - 1) / count < sz) :=
      fun h => absurd hdz (Nat.not_le.mpr h.2)
    have htot : mul64 count sz = count * sz := by
      unfold mul64; exact Nat.mod_eq_of_lt hov
    have h0 : count * sz ≠ 0 :=
      Nat.mul_ne_zero (Nat.pos_iff_ne_zero.mp hc) (Nat.pos_iff_ne_zero.mp hz)
    refine ⟨?_, fun i hi => ?_⟩
    · simp only [m61_calloc, if_neg hguard, htot,
        m61_malloc_success_eq s (count * sz) file line h0 hfit]
    · simp only [m61_calloc, if_neg hguard, htot,
        m61_malloc_success_eq s (count * sz) file line h0 hfit, memsetZero]
      rw [if_pos ⟨Nat.le_add_right _ _, Nat.add_lt_add_left hi _⟩]
  · intro hz0
    have hguard : ¬ (count ≠ 0 ∧ (UINT64 - 1) / count < sz) := by
      rcases hz0 with h | h
      · exact fun hq => hq.1 h
      · subst h; exact fun hq => absurd hq.2 (by simp)
    have htot : mul64 count sz = 0 := by
      rcases hz0 with h | h <;> subst h <;> simp [mul64]
    simp [m61_calloc, if_neg hguard, htot, m61_malloc]

/-- Claim C6 witness: `count = 3, size = 8` yields a 24-byte all-zero
region at the bump address; `count = 0` yields null with no record. -/
theorem c6_calloc_zeroing_witness :
    (0 < 3 ∧ 0 < 8 ∧ 3 * 8 < UINT64 ∧
      (initState 65536).pos + 3 * 8 ≤ buffer_size ∧
      (m61_calloc 3 8 tfile 4 (initState 65536)).1 =
        some (add64 (initState 65536).base (initState 65536).pos) ∧
      ∀ i, i < 3 * 8 →
        (m61_calloc 3 8 tfile 4 (initState 65536)).2.mem
          (add64 (initState 65536).base (initState 65536).pos + i) = 0) ∧
    ((0 = 0 ∨ 5 = 0) ∧
      (m61_calloc 0 5 tfile 4 (initState 65536)).1 = none) :=
  ⟨⟨by decide, by decide, by decide, by decide,
      ((c6_calloc_zeroing (initState 65536) 3 8 tfile 4).1
        (by decide) (by decide) (by decide) (by decide)).1,
      ((c6_calloc_zeroing (initState 65536) 3 8 tfile 4).1
        (by decide) (by decide) (by decide) (by decide)).2⟩,
    ⟨Or.inl rfl,
      ((c6_calloc_zeroing (initState 65536) 0 5 tfile 4).2 (Or.inl rfl)).1⟩⟩

/-- Numeric value of the 64-bit wrap modulus. -/
theorem UINT64_eq : UINT64 = 18446744073709551616 := by norm_num [UINT64]

/-- `m61_malloc` preserves the statistics/registry correspondence. -/
theorem malloc_StatsInv (s : AllocState) (sz : Nat) (f : Option String)
    (l : Int) (h : StatsInv s) : StatsInv (m61_malloc sz f l s).2 := by
  obtain ⟨h1, h2⟩ := h
  simp only [m61_malloc]
  split
  · exact ⟨h1, h2⟩
  · constructor
    · simp only [add64, h1, List.length_append, List.length_cons,
        List.length_nil, UINT64_eq]
      omega
    · simp only [add64, h2, List.map_append, List.map_cons, List.map_nil,
        List.sum_append, List.sum_cons, List.sum_nil, UINT64_eq]
      omega

/-- Each step of the API preserves the statistics/registry
correspondence. -/
theorem step_StatsInv (s : AllocState) (c : MCall) (h : StatsInv s) :
    StatsInv (step s c) := by
  obtain ⟨h1, h2⟩ := h
  cases c with
  | malloc sz f l => exact malloc_StatsInv s sz f l ⟨h1, h2⟩
  | calloc count sz f l =>
    simp only [step, m61_calloc]
    split
    · exact ⟨h1, h2⟩
    · rcases hrs : m61_malloc (mul64 count sz) f l s with ⟨r, s1⟩
      have hm : StatsInv s1 := by
        have hh := malloc_StatsInv s (mul64 count sz) f l ⟨h1, h2⟩
        rwa [hrs] at hh
      cases r
      · exact hm
      · exact hm
  | free p f l =>
    simp only [step, m61_free]
    split
    · exact ⟨h1, h2⟩
    · rcases hf : find_and_remove p s.active_allocations with _ | ⟨r, rest⟩
      · exact ⟨h1, h2⟩
      · obtain ⟨hptr, hlen, hsum⟩ := find_and_remove_spec hf
        constructor
        · simp only [sub64, h1, hlen, UINT64_eq]
          omega
        · simp only [sub64, h2, hsum, UINT64_eq]
          omega

/-- The registry length after `m61_malloc` grows by one exactly on
success. -/
theorem malloc_length (s : AllocState) (sz : Nat) (f : Option String)
    (l : Int) :
    (m61_malloc sz f l s).2.active_allocations.length =
      s.active_allocations.length +
        (if (m61_malloc sz f l s).1.isSome then 1 else 0) := by
  simp only [m61_malloc]
  split
  · simp
  · simp

/-- The registry length after `m61_calloc` grows by one exactly on
success. -/
theorem calloc_length (s : AllocState) (count sz : Nat) (f : Option String)
    (l : Int) :
    (m61_calloc count sz f l s).2.active_allocations.length =
      s.active_allocations.length +
        (if (m61_calloc count sz f l s).1.isSome then 1 else 0) := by
  simp only [m61_calloc]
  split
  · simp
  · rcases hrs : m61_malloc (mul64 count sz) f l s with ⟨r, s1⟩
    have hml := malloc_length s (mul64 count sz) f l
    rw [hrs] at hml
    cases r <;> simp_all

/-- Registry-length bookkeeping for a single API call. -/
theorem step_length (s : AllocState) (c : MCall) :
    (step s c).active_allocations.length + callSuccessFree s c =
      s.active_allocations.length + callSuccessAlloc s c := by
  cases c with
  | malloc sz f l =>
    simp only [step, callSuccessAlloc, callSuccessFree]
    rw [malloc_length]
    omega
  | calloc count sz f l =>
    simp only [step, callSuccessAlloc, callSuccessFree]
    rw [calloc_length]
    omega
  | free p f l =>
    simp only [step, callSuccessAlloc, callSuccessFree]
    by_cases hp : p = 0
    · simp [m61_free, hp]
    · rcases hf : find_and_remove p s.active_allocations with _ | ⟨r, rest⟩
      · simp [m61_free, hp, hf]
      · have hlen := (find_and_remove_spec hf).2.1
        simp [m61_free, hp, hf]
        omega

/-- Registry-length bookkeeping along a whole trace. -/
theorem run_length (s : AllocState) (t : List MCall) :
    (run s t).active_allocations.length + succFrees s t =
      s.active_allocations.length + succAllocs s t := by
  induction t generalizing s with
  | nil => simp [run, succFrees, succAllocs]
  | cons c t ih =>
    simp only [run, succFrees, succAllocs]
    have h1 := ih (step s c)
    have h2 := step_length s c
    omega

/-- The statistics/registry correspondence holds after every trace. -/
theorem run_StatsInv (s : AllocState) (t : List MCall) (h : StatsInv s) :
    StatsInv (run s t) := by
  induction t generalizing s with
  | nil => exact h
  | cons c t ih => exact ih (step s c) (step_StatsInv s c h)

/-- At most one successful allocation per call. -/
theorem succAllocs_le_length (s : AllocState) (t : List MCall) :
    succAllocs s t ≤ t.length := by
  induction t generalizing s with
  | nil => simp [succAllocs]
  | cons c t ih =>
    have h1 : callSuccessAlloc s c ≤ 1 := by
      cases c with
      | malloc sz f l => simp only [callSuccessAlloc]; split <;> omega
      | calloc count sz f l => simp only [callSuccessAlloc]; split <;> omega
      | free p f l => simp [callSuccessAlloc]
    have h2 := ih (step s c)
    simp only [succAllocs, List.length_cons]
    omega

/-- Claim C4 (amended): after any sequence of fewer than `2^64` API
calls from a fresh state, the active count equals the number of
successful allocations minus the number of successful releases, and
the active-byte total equals the sum of the live records' sizes
reduced modulo `2^64` (hence the exact sum whenever that sum is below
`2^64`). -/
theorem c4_stats_registry_consistency (b : Nat) (t : List MCall)
    (h : t.length < UINT64) :
    (run (initState b) t).gstats.nactive =
      succAllocs (initState b) t - succFrees (initState b) t ∧
    (run (initState b) t).gstats.active_size =
      ((run (initState b) t).active_allocations.map
        allocation_info.size).sum % UINT64 := by
  have hinv : StatsInv (run (initState b) t) :=
    run_StatsInv _ _ ⟨by simp [initState], by simp [initState]⟩
  have hlen := run_length (initState b) t
  have hA := succAllocs_le_length (initState b) t
  refine ⟨?_, hinv.2⟩
  have hlen0 : (initState b).active_allocations.length = 0 := rfl
  rw [hlen0] at hlen
  have hlt : (run (initState b) t).active_allocations.length < UINT64 := by
    omega
  rw [hinv.1, Nat.mod_eq_of_lt hlt]
  omega

/-- Claim C4 witness: a three-call trace — allocate 100 bytes, release
it, allocate 7 bytes — ends with one active allocation. -/
theorem c4_stats_registry_consistency_witness :
    wTrace.length < UINT64 ∧
    (run (initState 65536) wTrace).gstats.nactive =
      succAllocs (initState 65536) wTrace - succFrees (initState 65536) wTrace ∧
    succAllocs (initState 65536) wTrace = 2 ∧
    succFrees (initState 65536) wTrace = 1 ∧
    (run (initState 65536) wTrace).gstats.nactive = 1 ∧
    (run (initState 65536) wTrace).gstats.active_size = 7 :=
  ⟨by decide, (c4_stats_registry_consistency 65536 wTrace (by decide)).1,
    by decide, by decide, by decide, by decide⟩

/-- Claim C4 counterexample: after the wrapped-bounds allocation the
machine `active_size` is 0 while the mathematical sum of live record
sizes is `2^64` — the literal byte equation of the claim fails. -/
theorem c4_counterexample :
    bugState2.gstats.nactive = 2 ∧
    bugState2.gstats.active_size = 0 ∧
    (bugState2.active_allocations.map allocation_info.size).sum = UINT64 ∧
    bugState2.gstats.active_size ≠
      (bugState2.active_allocations.map allocation_info.size).sum := by
  exact ⟨by decide, by decide, by decide, by decide⟩

end M61
